import Mathlib

/-!
Verification of the RSVP registration service in `main.py`
(FastAPI + MongoDB, single file).

The program is embedded shallowly:

* MongoDB documents are association lists `List (String × BVal)` in
  insertion order, mirroring Python dicts / BSON documents.
* The Mongo collection is a `StoreState`: the list of stored documents
  plus a counter supplying fresh `ObjectId`s (the string form of an
  `ObjectId` is abstracted as `oidToString`).
* The module-level `collection` handle, which is `None` when the startup
  connection failed, is an `Option StoreState`.
* Request handlers become pure functions from the collection state (plus
  the request data and the current UTC clock reading, a `Nat`) to an
  HTTP-level result `Except HErr …` together with the new collection
  state.
* Pydantic validation of the request body (performed by FastAPI before
  the handler runs) is embedded over a JSON-ish value type `JsonVal`,
  including pydantic v2's lax coercions for `bool` fields.
-/

/-- BSON-ish values stored in documents. `objectId n` stands for a Mongo
`ObjectId`, `btime t` for a UTC `datetime` (instants are abstracted as
naturals, ordered as instants are). -/
inductive BVal : Type where
  | objectId (n : Nat)
  | bstr (s : String)
  | bbool (b : Bool)
  | bnull
  | btime (t : Nat)
deriving DecidableEq, Repr

/-- The string form `str(ObjectId)`; its exact format is irrelevant to the
program, only that it is a string. -/
def oidToString (n : Nat) : String := toString n

/-- A document: a Python dict in insertion order with unique keys. -/
abbrev Doc := List (String × BVal)

/-- `d[k]` lookup on a dict: first binding of the key, if any. -/
def dictGet {α : Type} : List (String × α) → String → Option α
  | [], _ => none
  | (k, v) :: rest, key => if k = key then some v else dictGet rest key

/-- `d[k] = v` assignment on a dict: replaces the first binding of the key
in place, or appends the binding when the key is absent. -/
def dictSet {α : Type} : List (String × α) → String → α → List (String × α)
  | [], key, v => [(key, v)]
  | (k, w) :: rest, key, v =>
      if k = key then (k, v) :: rest else (k, w) :: dictSet rest key v

/-- `convert_objectid_to_str` from `main.py`: if the document has an
`"_id"` key holding an `ObjectId`, replace it with its string form;
otherwise leave the document alone. -/
def convert_objectid_to_str (doc : Doc) : Doc :=
  match dictGet doc "_id" with
  | some (BVal.objectId n) => dictSet doc "_id" (BVal.bstr (oidToString n))
  | _ => doc

/-- The Mongo collection contents: stored documents in insertion order,
and the next fresh `ObjectId`. -/
structure StoreState : Type where
  docs : List Doc
  nextId : Nat
deriving DecidableEq, Repr

/-- `collection.insert_one(d)`: the store assigns a fresh `_id` to the
document and appends it; the result carries `inserted_id`. -/
def insert_one (s : StoreState) (d : Doc) : BVal × StoreState :=
  let iid := BVal.objectId s.nextId
  (iid, ⟨s.docs ++ [dictSet d "_id" iid], s.nextId + 1⟩)

/-- `collection.find_one({"_id": iid})`: first stored document whose
`_id` equals the given id. -/
def find_one (s : StoreState) (iid : BVal) : Option Doc :=
  s.docs.find? (fun d => dictGet d "_id" == some iid)

/-- Store well-formedness: every `_id` already stored was issued before
`nextId`, so a freshly issued id collides with no stored document. -/
def wf (s : StoreState) : Bool :=
  s.docs.all (fun d =>
    match dictGet d "_id" with
    | some (BVal.objectId n) => n < s.nextId
    | _ => true)

/-- The validated request body `RSVPModel` (pydantic) from `main.py`. -/
structure RSVPModel : Type where
  nome : String
  comparecera : Bool
  tem_filhos : Bool
  nomes_dos_filhos : Option String
  restricao_alimentar : Option String
deriving DecidableEq, Repr

/-- Embedding of an optional-string field value into BSON. -/
def optStrVal : Option String → BVal
  | none => BVal.bnull
  | some s => BVal.bstr s

/-- `rsvp.model_dump()`: the model as a dict, fields in declaration
order; note it contains neither `"_id"` nor `"timestamp"`. -/
def model_dump (m : RSVPModel) : Doc :=
  [("nome", BVal.bstr m.nome),
   ("comparecera", BVal.bbool m.comparecera),
   ("tem_filhos", BVal.bbool m.tem_filhos),
   ("nomes_dos_filhos", optStrVal m.nomes_dos_filhos),
   ("restricao_alimentar", optStrVal m.restricao_alimentar)]

/-- An error response raised via `HTTPException`. -/
structure HErr : Type where
  status : Nat
  detail : String
deriving DecidableEq, Repr

/-- The 503 raised by both handlers when `collection is None`. -/
def storeUnavailable : HErr :=
  ⟨503, "Não foi possível conectar ao banco de dados."⟩

/-- The 500 raised when the inserted document cannot be re-fetched. -/
def integrityErr : HErr :=
  ⟨500, "Não foi possível criar e recuperar o registro de confirmação."⟩

/-- Lines 135–143 of `main.py`: the tail of `registrar_presenca` after
the insert, given the store state after the insert and the result of the
re-fetch by `inserted_id`: a missing document raises the 500, otherwise
the re-fetched document is returned with its `_id` stringified. -/
def registrar_finish (afterIns : StoreState) (created_rsvp : Option Doc) :
    Except HErr Doc × Option StoreState :=
  match created_rsvp with
  | none => (Except.error integrityErr, some afterIns)
  | some c => (Except.ok (convert_objectid_to_str c), some afterIns)

/-- `registrar_presenca` (POST /rsvp handler body) from `main.py`: 503
when the collection handle is absent; otherwise dump the model, set the
server-clock UTC timestamp, insert, re-fetch by the new id and finish.
The pair's second component is the collection state afterwards. -/
def registrar_presenca (col : Option StoreState) (rsvp : RSVPModel)
    (now : Nat) : Except HErr Doc × Option StoreState :=
  match col with
  | none => (Except.error storeUnavailable, none)
  | some s =>
      let rsvp_dict := model_dump rsvp
      let rsvp_dict := dictSet rsvp_dict "timestamp" (BVal.btime now)
      let result := insert_one s rsvp_dict
      let created_rsvp := find_one result.2 result.1
      registrar_finish result.2 created_rsvp

/-- `timestamp` of a document, as read by the store's sort. Documents
inserted by this program always carry a `btime` timestamp. -/
def tsOf (d : Doc) : Nat :=
  match dictGet d "timestamp" with
  | some (BVal.btime t) => t
  | _ => 0

/-- Descending-timestamp order used by `.sort("timestamp", -1)`. -/
def tsGe (a b : Doc) : Prop := tsOf b ≤ tsOf a

instance : DecidableRel tsGe := fun a b => Nat.decLe (tsOf b) (tsOf a)

instance : IsTotal Doc tsGe := ⟨fun a b => Nat.le_total (tsOf b) (tsOf a)⟩

instance : IsTrans Doc tsGe := ⟨fun _ _ _ h h' => Nat.le_trans h' h⟩

/-- `list(collection.find().sort("timestamp", -1))`: every stored
document, ordered by timestamp descending. -/
def find_all_sorted (s : StoreState) : List Doc :=
  List.insertionSort tsGe s.docs

/-- `listar_confirmacoes` (GET /rsvp handler body) from `main.py`: 503
when the collection handle is absent; otherwise all documents sorted by
timestamp descending, each with its `_id` stringified. -/
def listar_confirmacoes (col : Option StoreState) : Except HErr (List Doc) :=
  match col with
  | none => Except.error storeUnavailable
  | some s => Except.ok ((find_all_sorted s).map convert_objectid_to_str)

/-- The HTTP methods `@app.get("/rsvp")` registers for the /rsvp path:
FastAPI's `APIRoute` keeps exactly the methods named by the decorator —
unlike a plain Starlette `Route`, it does not add HEAD to a GET route.
`main.py` registers no HEAD route anywhere. -/
def rsvpGetRouteMethods : List String := ["GET"]

/-- Modelled framework behaviour (FastAPI/Starlette dispatch, not in
`main.py`): a HEAD /rsvp request path-matches the GET route but
method-misses, so the router answers 405 Method Not Allowed without
running any endpoint; only if HEAD were among the route's methods would
`listar_confirmacoes` run, with the response body stripped. The result
is the response status. -/
def head_rsvp (col : Option StoreState) : Nat :=
  if rsvpGetRouteMethods.contains "HEAD" then
    match listar_confirmacoes col with
    | Except.ok _ => 200
    | Except.error e => e.status
  else 405

/-- Modelled from the spec: the POST /login handler (§4.4, §6), absent
from `main.py`: with no server-side secret configured it answers 500
whatever the input; otherwise exact string equality of the submitted
passphrase against the secret answers 200 (authenticated) or 401. The
result is the HTTP status and the authenticated flag. -/
def login (secret : Option String) (password : String) : Nat × Bool :=
  match secret with
  | none => (500, false)
  | some s => if password = s then (200, true) else (401, false)

/-- ASCII lower-casing of one character (`str.lower()` on the ASCII
range, which covers every comparison this program makes). -/
def charLower (c : Char) : Char :=
  if 'A' ≤ c ∧ c ≤ 'Z' then Char.ofNat (c.toNat + 32) else c

/-- ASCII lower-casing of a string, `s.lower()`. -/
def strLower (s : String) : String := ⟨s.data.map charLower⟩

/-- JSON values of a request body, as far as the declared fields need. -/
inductive JsonVal : Type where
  | jnull
  | jbool (b : Bool)
  | jstr (s : String)
  | jint (n : Int)
deriving DecidableEq, Repr

/-- A JSON request body: keys to values, in order. -/
abbrev Payload := List (String × JsonVal)

/-- Pydantic v2 validation of a `str` field value: only a JSON string is
accepted (numbers and booleans are not coerced to text). -/
def validateStr : JsonVal → Option String
  | JsonVal.jstr s => some s
  | _ => none

/-- Pydantic v2 lax validation of a `bool` field value: booleans, the
integers 0 and 1, and the usual boolean-ish strings (case-insensitive). -/
def validateBool : JsonVal → Option Bool
  | JsonVal.jbool b => some b
  | JsonVal.jint n =>
      if n = 0 then some false else if n = 1 then some true else none
  | JsonVal.jstr s =>
      let t := strLower s
      if ["true", "t", "yes", "y", "on", "1"].contains t then some true
      else if ["false", "f", "no", "n", "off", "0"].contains t then some false
      else none
  | JsonVal.jnull => none

/-- Pydantic validation of an `Optional[str] = None` field: absent or
null yields the default `None`; a string is accepted; anything else is
rejected. -/
def validateOptStr : Option JsonVal → Option (Option String)
  | none => some none
  | some JsonVal.jnull => some none
  | some (JsonVal.jstr s) => some (some s)
  | some _ => none

/-- Pydantic validation of a request body against `RSVPModel`
(`main.py` lines 57–65): the three required fields must be present and
well-typed, `nome` must be a string of length at least 2
(`min_length=2`), the two optional string fields default to `None`.
Keys that are not fields of the model (pydantic's default
`extra="ignore"`) — in particular a client-supplied `"timestamp"` — are
ignored. Failure stands for pydantic's `ValidationError`. -/
def validateRSVP (p : Payload) : Option RSVPModel :=
  (dictGet p "nome").bind fun vn =>
  (validateStr vn).bind fun nome =>
  if nome.length < 2 then none else
  (dictGet p "comparecera").bind fun vc =>
  (validateBool vc).bind fun comparecera =>
  (dictGet p "tem_filhos").bind fun vt =>
  (validateBool vt).bind fun tf =>
  (validateOptStr (dictGet p "nomes_dos_filhos")).bind fun nf =>
  (validateOptStr (dictGet p "restricao_alimentar")).bind fun ra =>
  some ⟨nome, comparecera, tf, nf, ra⟩

/-- Modelled framework behaviour (FastAPI, not in `main.py`): a body
failing pydantic validation is answered 422 before the handler runs. -/
def validationErr : HErr := ⟨422, "request validation error"⟩

/-- The full POST /rsvp pipeline: FastAPI validates the JSON body
against `RSVPModel`; on failure it answers 422 and the handler never
runs (the collection state is untouched); on success the handler
`registrar_presenca` runs on the validated model. -/
def post_rsvp (col : Option StoreState) (p : Payload) (now : Nat) :
    Except HErr Doc × Option StoreState :=
  match validateRSVP p with
  | none => (Except.error validationErr, col)
  | some m => registrar_presenca col m now

/-- Case-insensitive match of a document's `nome` against a submitted
name (the comparison §4.2 of the spec prescribes for the duplicate
check). -/
def nomeMatchesCI (d : Doc) (q : String) : Bool :=
  match dictGet d "nome" with
  | some (BVal.bstr s) => strLower s = strLower q
  | _ => false

/-- How many stored documents carry a case-variant of the given name. -/
def countCI (l : List Doc) (q : String) : Nat :=
  (l.filter (fun d => nomeMatchesCI d q)).length

/-- Whether a handler result is the duplicate/conflict answer (409). -/
def isConflict (r : Except HErr Doc) : Bool :=
  match r with
  | Except.error e => e.status == 409
  | Except.ok _ => false

/-- A stored document as this program writes them, for concrete runs. -/
def sampleDoc (name : String) (t : Nat) (i : Nat) : Doc :=
  [("nome", BVal.bstr name),
   ("comparecera", BVal.bbool true),
   ("tem_filhos", BVal.bbool false),
   ("nomes_dos_filhos", BVal.bnull),
   ("restricao_alimentar", BVal.bnull),
   ("timestamp", BVal.btime t),
   ("_id", BVal.objectId i)]

/-- A store already holding a confirmation for "Ana". -/
def anaStore : StoreState := ⟨[sampleDoc "Ana" 1 0], 1⟩

/-- A submission for "ANA", a case-variant of the stored "Ana". -/
def anaModel : RSVPModel := ⟨"ANA", true, false, none, none⟩

/-- A fresh valid submission for concrete runs. -/
def mJoao : RSVPModel := ⟨"João", true, true, some "Maria e Pedro", none⟩

/-- The document `registrar_presenca` inserts for `mJoao` at time 5 into
the empty store. -/
def joaoDoc : Doc :=
  dictSet (dictSet (model_dump mJoao) "timestamp" (BVal.btime 5))
    "_id" (BVal.objectId 0)

/-- The store after that insert. -/
def joaoStore : StoreState := ⟨[joaoDoc], 1⟩

/-- A request body missing the required `comparecera` field. -/
def payloadMissing : Payload :=
  [("nome", JsonVal.jstr "Ana"), ("tem_filhos", JsonVal.jbool false)]

/-- A valid request body that also smuggles in a client `timestamp`. -/
def payloadWithTs : Payload :=
  [("nome", JsonVal.jstr "Ana"),
   ("comparecera", JsonVal.jbool true),
   ("tem_filhos", JsonVal.jbool false),
   ("timestamp", JsonVal.jstr "1999-01-01T00:00:00Z")]

/-- The document `registrar_presenca` hands to `insert_one` for model
`m` at clock `now`, as stored under the fresh id `i`. -/
def insertedDoc (m : RSVPModel) (now i : Nat) : Doc :=
  dictSet (dictSet (model_dump m) "timestamp" (BVal.btime now))
    "_id" (BVal.objectId i)

/-- A document with an `ObjectId`-valued `_id`, for concrete runs. -/
def idDoc : Doc := [("_id", BVal.objectId 7), ("nome", BVal.bstr "Ana")]

/-! ### Dictionary and store lemmas -/

theorem dictGet_dictSet_self {α : Type} (d : List (String × α)) (k : String)
    (v : α) : dictGet (dictSet d k v) k = some v := by
  induction d with
  | nil => simp [dictSet, dictGet]
  | cons p rest ih =>
    obtain ⟨a, w⟩ := p
    by_cases ha : a = k
    · simp [dictSet, dictGet, ha]
    · simp [dictSet, dictGet, ha, ih]

theorem dictGet_dictSet_ne {α : Type} (d : List (String × α)) (k k' : String)
    (v : α) (h : k' ≠ k) : dictGet (dictSet d k v) k' = dictGet d k' := by
  induction d with
  | nil => simp [dictSet, dictGet, Ne.symm h]
  | cons p rest ih =>
    obtain ⟨a, w⟩ := p
    by_cases ha : a = k
    · subst ha
      simp [dictSet, dictGet, Ne.symm h]
    · simp [dictSet, dictGet, ha, ih]

theorem list_find_skip {α : Type} (p : α → Bool) (l1 l2 : List α)
    (h : ∀ a ∈ l1, p a = false) : (l1 ++ l2).find? p = l2.find? p := by
  induction l1 with
  | nil => rfl
  | cons a l ih =>
    have ha : p a = false := h a (List.mem_cons_self a l)
    simp only [List.cons_append, List.find?, ha]
    exact ih (fun b hb => h b (List.mem_cons_of_mem a hb))

theorem wf_id_ne (s : StoreState) (hwf : wf s = true) (e : Doc)
    (he : e ∈ s.docs) :
    (dictGet e "_id" == some (BVal.objectId s.nextId)) = false := by
  have h := (List.all_eq_true.mp hwf) e he
  cases hid : dictGet e "_id" with
  | none => rfl
  | some v =>
    cases v with
    | objectId n =>
      rw [hid] at h
      have hn : n < s.nextId := by simpa using h
      simp only [beq_eq_false_iff_ne, ne_eq, Option.some.injEq,
        BVal.objectId.injEq]
      omega
    | bstr s' => simp [beq_eq_false_iff_ne]
    | bbool b => simp [beq_eq_false_iff_ne]
    | bnull => simp [beq_eq_false_iff_ne]
    | btime t => simp [beq_eq_false_iff_ne]

theorem find_one_insert (s : StoreState) (d : Doc) (hwf : wf s = true) :
    find_one (insert_one s d).2 (insert_one s d).1
      = some (dictSet d "_id" (BVal.objectId s.nextId)) := by
  show (s.docs ++ [dictSet d "_id" (BVal.objectId s.nextId)]).find?
        (fun e => dictGet e "_id" == some (BVal.objectId s.nextId))
      = some (dictSet d "_id" (BVal.objectId s.nextId))
  rw [list_find_skip _ s.docs _ (fun e he => wf_id_ne s hwf e he)]
  simp [List.find?, dictGet_dictSet_self]

theorem registrar_eq (s : StoreState) (m : RSVPModel) (now : Nat)
    (hwf : wf s = true) :
    registrar_presenca (some s) m now
      = (Except.ok (convert_objectid_to_str (insertedDoc m now s.nextId)),
         some ⟨s.docs ++ [insertedDoc m now s.nextId], s.nextId + 1⟩) := by
  show registrar_finish
      (insert_one s (dictSet (model_dump m) "timestamp" (BVal.btime now))).2
      (find_one
        (insert_one s (dictSet (model_dump m) "timestamp" (BVal.btime now))).2
        (insert_one s (dictSet (model_dump m) "timestamp" (BVal.btime now))).1)
    = _
  rw [find_one_insert s _ hwf]
  rfl

theorem insertedDoc_get_id (m : RSVPModel) (now i : Nat) :
    dictGet (insertedDoc m now i) "_id" = some (BVal.objectId i) :=
  dictGet_dictSet_self _ "_id" _

theorem insertedDoc_get_ts (m : RSVPModel) (now i : Nat) :
    dictGet (insertedDoc m now i) "timestamp" = some (BVal.btime now) := by
  unfold insertedDoc
  rw [dictGet_dictSet_ne _ "_id" "timestamp" _ (by decide)]
  exact dictGet_dictSet_self _ "timestamp" _

theorem insertedDoc_get_nome (m : RSVPModel) (now i : Nat) :
    dictGet (insertedDoc m now i) "nome" = some (BVal.bstr m.nome) := by
  unfold insertedDoc
  rw [dictGet_dictSet_ne _ "_id" "nome" _ (by decide),
    dictGet_dictSet_ne _ "timestamp" "nome" _ (by decide)]
  rfl

theorem dictGet_convert_ne (d : Doc) (k : String) (h : k ≠ "_id") :
    dictGet (convert_objectid_to_str d) k = dictGet d k := by
  unfold convert_objectid_to_str
  cases hid : dictGet d "_id" with
  | none => rfl
  | some v =>
    cases v with
    | objectId n => exact dictGet_dictSet_ne d "_id" k _ h
    | bstr s => rfl
    | bbool b => rfl
    | bnull => rfl
    | btime t => rfl

theorem tsOf_convert (d : Doc) : tsOf (convert_objectid_to_str d) = tsOf d := by
  unfold tsOf
  rw [dictGet_convert_ne d "timestamp" (by decide)]

theorem convert_idem (d : Doc) :
    convert_objectid_to_str (convert_objectid_to_str d)
      = convert_objectid_to_str d := by
  cases hid : dictGet d "_id" with
  | none =>
    have e1 : convert_objectid_to_str d = d := by
      unfold convert_objectid_to_str; rw [hid]
    rw [e1]
    exact e1
  | some v =>
    cases v with
    | objectId n =>
      have e1 : convert_objectid_to_str d
          = dictSet d "_id" (BVal.bstr (oidToString n)) := by
        unfold convert_objectid_to_str; rw [hid]
      rw [e1]
      unfold convert_objectid_to_str
      rw [dictGet_dictSet_self d "_id" (BVal.bstr (oidToString n))]
    | bstr s =>
      have e1 : convert_objectid_to_str d = d := by
        unfold convert_objectid_to_str; rw [hid]
      rw [e1]
      exact e1
    | bbool b =>
      have e1 : convert_objectid_to_str d = d := by
        unfold convert_objectid_to_str; rw [hid]
      rw [e1]
      exact e1
    | bnull =>
      have e1 : convert_objectid_to_str d = d := by
        unfold convert_objectid_to_str; rw [hid]
      rw [e1]
      exact e1
    | btime t =>
      have e1 : convert_objectid_to_str d = d := by
        unfold convert_objectid_to_str; rw [hid]
      rw [e1]
      exact e1

theorem convert_id_str (d : Doc) (n : Nat)
    (hid : dictGet d "_id" = some (BVal.objectId n)) :
    dictGet (convert_objectid_to_str d) "_id"
      = some (BVal.bstr (oidToString n)) := by
  unfold convert_objectid_to_str
  rw [hid]
  exact dictGet_dictSet_self d "_id" _

theorem countCI_append_match (l : List Doc) (d : Doc) (q : String)
    (h : nomeMatchesCI d q = true) :
    countCI (l ++ [d]) q = countCI l q + 1 := by
  unfold countCI
  rw [List.filter_append]
  simp [h]

theorem inserted_matches_self (m : RSVPModel) (now i : Nat) :
    nomeMatchesCI (insertedDoc m now i) m.nome = true := by
  unfold nomeMatchesCI
  rw [insertedDoc_get_nome]
  simp

/-! ### Claim theorems -/

/-- C1 counterexample: a store already holds a record named "Ana", yet
submitting "ANA" does not fail with the 409 conflict — it succeeds, and
afterwards two stored records carry a case-variant of the submitted
name, not one. -/
theorem registrar_duplicate_claim_false :
    isConflict (registrar_presenca (some anaStore) anaModel 2).1 = false ∧
    ((registrar_presenca (some anaStore) anaModel 2).2.map
      (fun s1 => countCI s1.docs anaModel.nome)) = some 2 :=
  ⟨rfl, rfl⟩

/-- C1 (amended): `registrar_presenca` performs no duplicate-name check
at all: even when some stored record's name matches the submitted name
case-insensitively, the create succeeds (no 409 conflict), a new record
is inserted, and afterwards at least two stored records carry a
case-variant of the submitted name. -/
theorem registrar_no_duplicate_check (s : StoreState) (m : RSVPModel)
    (now : Nat) (hwf : wf s = true)
    (hdup : ∃ d ∈ s.docs, nomeMatchesCI d m.nome = true) :
    isConflict (registrar_presenca (some s) m now).1 = false ∧
    ∃ s2, (registrar_presenca (some s) m now).2 = some s2 ∧
      countCI s2.docs m.nome = countCI s.docs m.nome + 1 ∧
      2 ≤ countCI s2.docs m.nome := by
  rw [registrar_eq s m now hwf]
  have hcnt : countCI (s.docs ++ [insertedDoc m now s.nextId]) m.nome
      = countCI s.docs m.nome + 1 :=
    countCI_append_match s.docs _ m.nome (inserted_matches_self m now s.nextId)
  refine ⟨rfl, ⟨s.docs ++ [insertedDoc m now s.nextId], s.nextId + 1⟩,
    rfl, hcnt, ?_⟩
  obtain ⟨d, hd, hmatch⟩ := hdup
  have hpos : 0 < countCI s.docs m.nome := by
    unfold countCI
    exact List.length_pos_of_mem (List.mem_filter.mpr ⟨hd, hmatch⟩)
  show 2 ≤ countCI (s.docs ++ [insertedDoc m now s.nextId]) m.nome
  omega

/-- C1 witness: the amended claim at the concrete "Ana"/"ANA" store. -/
theorem registrar_no_duplicate_check_witness :
    isConflict (registrar_presenca (some anaStore) anaModel 7).1 = false ∧
    ∃ s2, (registrar_presenca (some anaStore) anaModel 7).2 = some s2 ∧
      countCI s2.docs anaModel.nome = countCI anaStore.docs anaModel.nome + 1 ∧
      2 ≤ countCI s2.docs anaModel.nome :=
  registrar_no_duplicate_check anaStore anaModel 7 (by decide)
    ⟨sampleDoc "Ana" 1 0, by decide, by decide⟩

/-- C2: POST /login answers 200 (authenticated) on the exact configured
passphrase, 401 on any other string, and 500 whenever no secret is
configured server-side, regardless of the input. -/
theorem login_cases :
    (∀ s : String, login (some s) s = (200, true)) ∧
    (∀ s pw : String, pw ≠ s → login (some s) pw = (401, false)) ∧
    (∀ pw : String, login none pw = (500, false)) :=
  ⟨fun s => by simp [login],
   fun s pw h => by simp [login, h],
   fun _ => rfl⟩

/-- C2 witness: the three login outcomes at concrete passphrases. -/
theorem login_cases_witness :
    login (some "segredo") "segredo" = (200, true) ∧
    login (some "segredo") "errado" = (401, false) ∧
    login none "qualquer" = (500, false) :=
  ⟨login_cases.1 "segredo",
   login_cases.2.1 "segredo" "errado" (by decide),
   login_cases.2.2 "qualquer"⟩

/-- C3 counterexample: a HEAD /rsvp request — here with the store handle
absent — is answered 405 Method Not Allowed by the router, because no
HEAD route exists and FastAPI's GET route does not answer HEAD; it is
never the claimed 200 success. -/
theorem head_rsvp_claim_false : head_rsvp none = 405 ∧ head_rsvp none ≠ 200 :=
  ⟨rfl, by decide⟩

/-- C3 (amended): HEAD /rsvp is answered 405 Method Not Allowed by the
router for every store handle state — no handler runs, and the store's
reachability is indeed never consulted: the status is the same whatever
the handle holds. -/
theorem head_rsvp_status :
    (∀ col : Option StoreState, head_rsvp col = 405) ∧
    (∀ col col' : Option StoreState, head_rsvp col = head_rsvp col') :=
  ⟨fun _ => rfl, fun _ _ => rfl⟩

/-- C6: with the store handle absent, both store-dependent operations
immediately answer 503 (`storeUnavailable`); the create touches no store
and leaves the (absent) handle unchanged, and the list likewise only
fails. -/
theorem store_absent_503 :
    (∀ (m : RSVPModel) (now : Nat),
      registrar_presenca none m now = (Except.error storeUnavailable, none)) ∧
    listar_confirmacoes none = Except.error storeUnavailable ∧
    storeUnavailable.status = 503 :=
  ⟨fun _ _ => rfl, rfl, rfl⟩

/-- C8: a body missing a required field (`nome`, `comparecera`,
`tem_filhos`), or giving one a value its type rejects, or giving `nome`
fewer than 2 characters, is answered 422 by validation before the
handler runs: the collection state is returned untouched. -/
theorem validation_rejects_before_write (col : Option StoreState)
    (p : Payload) (now : Nat)
    (h : dictGet p "nome" = none ∨ dictGet p "comparecera" = none ∨
        dictGet p "tem_filhos" = none ∨
        (∃ v, dictGet p "nome" = some v ∧ validateStr v = none) ∨
        (∃ nm, dictGet p "nome" = some (JsonVal.jstr nm) ∧ nm.length < 2) ∨
        (∃ v, dictGet p "comparecera" = some v ∧ validateBool v = none) ∨
        (∃ v, dictGet p "tem_filhos" = some v ∧ validateBool v = none)) :
    post_rsvp col p now = (Except.error validationErr, col) ∧
    validationErr.status = 422 := by
  have hval : validateRSVP p = none := by
    unfold validateRSVP
    rcases h with h | h | h | ⟨v, hv, hn⟩ | ⟨nm, hs, hl⟩ | ⟨v, hv, hn⟩
      | ⟨v, hv, hn⟩
    · simp [h]
    · cases hg : dictGet p "nome" with
      | none => simp [hg]
      | some w =>
        cases hsv : validateStr w with
        | none => simp [hg, hsv]
        | some nome =>
          by_cases hl : nome.length < 2
          · simp [hg, hsv, hl]
          · simp [hg, hsv, hl, h]
    · cases hg : dictGet p "nome" with
      | none => simp [hg]
      | some w =>
        cases hsv : validateStr w with
        | none => simp [hg, hsv]
        | some nome =>
          by_cases hl : nome.length < 2
          · simp [hg, hsv, hl]
          · cases hc : dictGet p "comparecera" with
            | none => simp [hg, hsv, hl, hc]
            | some wc =>
              cases hb : validateBool wc with
              | none => simp [hg, hsv, hl, hc, hb]
              | some b => simp [hg, hsv, hl, hc, hb, h]
    · simp [hv, hn]
    · simp [hs, validateStr, hl]
    · cases hg : dictGet p "nome" with
      | none => simp [hg]
      | some w =>
        cases hsv : validateStr w with
        | none => simp [hg, hsv]
        | some nome =>
          by_cases hl : nome.length < 2
          · simp [hg, hsv, hl]
          · simp [hg, hsv, hl, hv, hn]
    · cases hg : dictGet p "nome" with
      | none => simp [hg]
      | some w =>
        cases hsv : validateStr w with
        | none => simp [hg, hsv]
        | some nome =>
          by_cases hl : nome.length < 2
          · simp [hg, hsv, hl]
          · cases hc : dictGet p "comparecera" with
            | none => simp [hg, hsv, hl, hc]
            | some wc =>
              cases hb : validateBool wc with
              | none => simp [hg, hsv, hl, hc, hb]
              | some b => simp [hg, hsv, hl, hc, hb, hv, hn]
  unfold post_rsvp
  rw [hval]
  exact ⟨rfl, rfl⟩

/-- C8 witness: a body missing the required `comparecera`
(`will_attend`) field is answered 422 and the store gains no record. -/
theorem validation_rejects_before_write_witness :
    post_rsvp (some (⟨[], 0⟩ : StoreState)) payloadMissing 7
      = (Except.error validationErr, some (⟨[], 0⟩ : StoreState)) ∧
    validationErr.status = 422 :=
  validation_rejects_before_write (some ⟨[], 0⟩) payloadMissing 7
    (Or.inr (Or.inl (by decide)))

/-- C9: a record returned by a successful POST /rsvp appears, after a
subsequent GET /rsvp with no intervening writes, as a listed record with
identical `_id`, `nome`, `comparecera`, `tem_filhos`,
`nomes_dos_filhos`, `restricao_alimentar` and `timestamp` values. -/
theorem post_then_get_roundtrip (s : StoreState) (m : RSVPModel) (now : Nat)
    (rec : Doc) (after : Option StoreState) (hwf : wf s = true)
    (hpost : registrar_presenca (some s) m now = (Except.ok rec, after)) :
    ∃ st L, after = some st ∧
      listar_confirmacoes (some st) = Except.ok L ∧
      ∃ r ∈ L,
        dictGet r "_id" = dictGet rec "_id" ∧
        dictGet r "nome" = dictGet rec "nome" ∧
        dictGet r "comparecera" = dictGet rec "comparecera" ∧
        dictGet r "tem_filhos" = dictGet rec "tem_filhos" ∧
        dictGet r "nomes_dos_filhos" = dictGet rec "nomes_dos_filhos" ∧
        dictGet r "restricao_alimentar" = dictGet rec "restricao_alimentar" ∧
        dictGet r "timestamp" = dictGet rec "timestamp" := by
  rw [registrar_eq s m now hwf] at hpost
  injection hpost with h1 h2
  injection h1 with h1
  subst h1
  refine ⟨⟨s.docs ++ [insertedDoc m now s.nextId], s.nextId + 1⟩, _,
    h2.symm, rfl,
    convert_objectid_to_str (insertedDoc m now s.nextId), ?_,
    rfl, rfl, rfl, rfl, rfl, rfl, rfl⟩
  have hmem0 : insertedDoc m now s.nextId
      ∈ List.insertionSort tsGe (s.docs ++ [insertedDoc m now s.nextId]) := by
    rw [List.mem_insertionSort]
    simp
  exact List.mem_map_of_mem convert_objectid_to_str hmem0

/-- C9 witness: the round-trip at the empty store with the `mJoao`
submission at clock 5. -/
theorem post_then_get_roundtrip_witness :
    ∃ st L, (some joaoStore : Option StoreState) = some st ∧
      listar_confirmacoes (some st) = Except.ok L ∧
      ∃ r ∈ L,
        dictGet r "_id" = dictGet (convert_objectid_to_str joaoDoc) "_id" ∧
        dictGet r "nome" = dictGet (convert_objectid_to_str joaoDoc) "nome" ∧
        dictGet r "comparecera"
          = dictGet (convert_objectid_to_str joaoDoc) "comparecera" ∧
        dictGet r "tem_filhos"
          = dictGet (convert_objectid_to_str joaoDoc) "tem_filhos" ∧
        dictGet r "nomes_dos_filhos"
          = dictGet (convert_objectid_to_str joaoDoc) "nomes_dos_filhos" ∧
        dictGet r "restricao_alimentar"
          = dictGet (convert_objectid_to_str joaoDoc) "restricao_alimentar" ∧
        dictGet r "timestamp"
          = dictGet (convert_objectid_to_str joaoDoc) "timestamp" :=
  post_then_get_roundtrip ⟨[], 0⟩ mJoao 5 (convert_objectid_to_str joaoDoc)
    (some joaoStore) (by decide) rfl

/-- C10: `convert_objectid_to_str` leaves every key other than `"_id"`
unchanged, is idempotent, and only replaces an `ObjectId`-valued `"_id"`
with its string form. -/
theorem convert_frame_idempotent (d : Doc) (k : String) (h : k ≠ "_id") :
    dictGet (convert_objectid_to_str d) k = dictGet d k ∧
    convert_objectid_to_str (convert_objectid_to_str d)
      = convert_objectid_to_str d ∧
    (∀ n, dictGet d "_id" = some (BVal.objectId n) →
      dictGet (convert_objectid_to_str d) "_id"
        = some (BVal.bstr (oidToString n))) :=
  ⟨dictGet_convert_ne d k h, convert_idem d, fun n hn => convert_id_str d n hn⟩

/-- C4: GET /rsvp returns every stored record (a permutation of the
store's documents, each with its `_id` stringified), ordered by
timestamp descending; in particular a store holding records timestamped
1 < 2 < 3 is listed most-recent first. -/
theorem listar_sorted_desc :
    (∀ s : StoreState, ∃ L, listar_confirmacoes (some s) = Except.ok L ∧
        L.Perm (s.docs.map convert_objectid_to_str) ∧ List.Sorted tsGe L) ∧
    listar_confirmacoes (some ⟨[sampleDoc "Alice" 1 0, sampleDoc "Bruno" 2 1,
        sampleDoc "Carla" 3 2], 3⟩)
      = Except.ok [convert_objectid_to_str (sampleDoc "Carla" 3 2),
          convert_objectid_to_str (sampleDoc "Bruno" 2 1),
          convert_objectid_to_str (sampleDoc "Alice" 1 0)] := by
  constructor
  · intro s
    refine ⟨_, rfl, ?_, ?_⟩
    · exact (List.perm_insertionSort tsGe s.docs).map _
    · show List.Pairwise tsGe
        ((List.insertionSort tsGe s.docs).map convert_objectid_to_str)
      refine List.Pairwise.map _ (fun a b hab => ?_)
        (List.sorted_insertionSort tsGe s.docs)
      unfold tsGe at hab ⊢
      rw [tsOf_convert, tsOf_convert]
      exact hab
  · rfl

/-- FastAPI validation ignores keys that are not fields of `RSVPModel`;
setting a `"timestamp"` key in the body changes nothing. -/
theorem validateRSVP_set_ts (p : Payload) (v : JsonVal) :
    validateRSVP (dictSet p "timestamp" v) = validateRSVP p := by
  unfold validateRSVP
  rw [dictGet_dictSet_ne p "timestamp" "nome" v (by decide),
    dictGet_dictSet_ne p "timestamp" "comparecera" v (by decide),
    dictGet_dictSet_ne p "timestamp" "tem_filhos" v (by decide),
    dictGet_dictSet_ne p "timestamp" "nomes_dos_filhos" v (by decide),
    dictGet_dictSet_ne p "timestamp" "restricao_alimentar" v (by decide)]

/-- C5: on a validated create, the stored record's `timestamp` is the
server clock reading taken at insert time; a client-supplied
`"timestamp"` value in the body is discarded by validation and changes
nothing about the request's outcome. -/
theorem timestamp_server_assigned (s : StoreState) (p : Payload) (now : Nat)
    (m : RSVPModel) (hv : validateRSVP p = some m) (hwf : wf s = true) :
    (∃ d, (post_rsvp (some s) p now).2 = some ⟨s.docs ++ [d], s.nextId + 1⟩ ∧
        dictGet d "timestamp" = some (BVal.btime now)) ∧
    (∀ v : JsonVal, post_rsvp (some s) (dictSet p "timestamp" v) now
        = post_rsvp (some s) p now) := by
  constructor
  · have hpost : post_rsvp (some s) p now = registrar_presenca (some s) m now := by
      unfold post_rsvp
      rw [hv]
    rw [hpost, registrar_eq s m now hwf]
    exact ⟨insertedDoc m now s.nextId, rfl, insertedDoc_get_ts m now s.nextId⟩
  · intro v
    unfold post_rsvp
    rw [validateRSVP_set_ts p v]

/-- C5 witness: a body smuggling a client timestamp, posted to the empty
store at server clock 5. -/
theorem timestamp_server_assigned_witness :
    (∃ d, (post_rsvp (some (⟨[], 0⟩ : StoreState)) payloadWithTs 5).2
        = some ⟨([] : List Doc) ++ [d], 0 + 1⟩ ∧
        dictGet d "timestamp" = some (BVal.btime 5)) ∧
    (∀ v : JsonVal,
      post_rsvp (some (⟨[], 0⟩ : StoreState)) (dictSet payloadWithTs "timestamp" v) 5
        = post_rsvp (some (⟨[], 0⟩ : StoreState)) payloadWithTs 5) :=
  timestamp_server_assigned ⟨[], 0⟩ payloadWithTs 5
    ⟨"Ana", true, false, none, none⟩ rfl (by decide)

/-- C7: a create on a present, well-formed store inserts exactly the
timestamped record, re-fetches it by the freshly assigned id, and
returns that fully materialized record (with `id` and `timestamp`); and
an empty re-fetch makes the handler fail with the 500 internal
inconsistency. -/
theorem registrar_insert_refetch (s : StoreState) (m : RSVPModel) (now : Nat)
    (hwf : wf s = true) :
    (∃ d, registrar_presenca (some s) m now
          = (Except.ok (convert_objectid_to_str d),
             some ⟨s.docs ++ [d], s.nextId + 1⟩) ∧
        dictGet d "_id" = some (BVal.objectId s.nextId) ∧
        dictGet d "timestamp" = some (BVal.btime now) ∧
        find_one ⟨s.docs ++ [d], s.nextId + 1⟩ (BVal.objectId s.nextId)
          = some d) ∧
    (∀ st : StoreState, registrar_finish st none
        = (Except.error integrityErr, some st)) ∧
    integrityErr.status = 500 := by
  refine ⟨⟨insertedDoc m now s.nextId, registrar_eq s m now hwf,
      insertedDoc_get_id m now s.nextId, insertedDoc_get_ts m now s.nextId,
      ?_⟩, fun _ => rfl, rfl⟩
  exact find_one_insert s (dictSet (model_dump m) "timestamp" (BVal.btime now))
    hwf

/-- C7 witness: the insert/re-fetch run at the empty store, plus the
500 outcome of an empty re-fetch. -/
theorem registrar_insert_refetch_witness :
    (∃ d, registrar_presenca (some (⟨[], 0⟩ : StoreState)) mJoao 5
          = (Except.ok (convert_objectid_to_str d),
             some ⟨([] : List Doc) ++ [d], 0 + 1⟩) ∧
        dictGet d "_id" = some (BVal.objectId 0) ∧
        dictGet d "timestamp" = some (BVal.btime 5) ∧
        find_one ⟨([] : List Doc) ++ [d], 0 + 1⟩ (BVal.objectId 0)
          = some d) ∧
    (∀ st : StoreState, registrar_finish st none
        = (Except.error integrityErr, some st)) ∧
    integrityErr.status = 500 :=
  registrar_insert_refetch ⟨[], 0⟩ mJoao 5 (by decide)

/-- C10 witness: the frame and idempotence facts at a concrete document
holding an `ObjectId`. -/
theorem convert_frame_idempotent_witness :
    dictGet (convert_objectid_to_str idDoc) "nome" = dictGet idDoc "nome" ∧
    convert_objectid_to_str (convert_objectid_to_str idDoc)
      = convert_objectid_to_str idDoc ∧
    (∀ n, dictGet idDoc "_id" = some (BVal.objectId n) →
      dictGet (convert_objectid_to_str idDoc) "_id"
        = some (BVal.bstr (oidToString n))) :=
  convert_frame_idempotent idDoc "nome" (by decide)
